import Mathlib

/-!
# Verification of the Capture Session Cache & Overlay Pool subsystem

Shallow embedding of the Rust sources of the Vely capture utility:

* `src/src-tauri/src/overlay/screenshot_cache.rs`   (`ScreenshotCache`)
* `src/src-tauri/src/system/permission_cache.rs`    (`PermissionCache`)
* `src/src-tauri/src/overlay/selection_overlay.rs`  (`SelectionOverlay`)
* `src/src-tauri/src/overlay/overlay_manager.rs`    (`OverlayManager`)

Modelling conventions:

* `Instant` timestamps are natural numbers; `t.elapsed()` at time `now` is the
  truncated subtraction `now - t` (the clock is monotone, so in a real
  execution a stored timestamp never exceeds `now`).  Each stateful operation
  receives `now` explicitly.
* Rust `HashMap`s become association lists; `insert` replaces any previous
  binding of the key, so reachable cache states never hold duplicate keys.
* Machine integers are `Int`/`Nat` with explicit reduction modulo `2^32` at
  the points where the Rust code casts between `i32` and `u32` or where
  release-mode wrapping arithmetic applies (the bounds-clamping code).
* External collaborators (the `screenshots` crate, the Tauri window builder,
  the rasterizer `ScreenCapture::capture_region` whose source lives in the
  excluded `screen_capture.rs`) are passed in as explicit records of fallible
  functions; stateful operations also return how many times they invoked the
  external capture/create call, modelling the invocation counters of the
  observable contracts.
* Mutex locking is not modelled (lock poisoning never occurs in the
  abstraction); each Rust method on `&mut self` becomes a pure function from
  the old state to the result paired with the new state.
-/

/-- `CaptureBounds` from `main.rs`: `{x: i32, y: i32, width: u32, height: u32}`.
`x`,`y` are modelled as `Int` (i32 values), `width`,`height` as `Nat` (u32
values). -/
structure CaptureBounds where
  x : Int
  y : Int
  width : Nat
  height : Nat
deriving DecidableEq, Repr

/-! ## 32-bit wrapping arithmetic used by the clamping code -/

/-- Signed 32-bit wrap: the unique integer congruent to `z` mod `2^32` lying
in `[-2^31, 2^31)`.  This is what release-mode Rust produces for an
overflowing `i32` operation and for an `as i32` cast. -/
def wrap32s (z : Int) : Int :=
  (z + 2147483648) % 4294967296 - 2147483648

/-- `as i32` cast of a `u32` value. -/
def i32cast_u32 (n : Nat) : Int := wrap32s n

/-- `as u32` cast of an `i32` value: reduce mod `2^32` into `[0, 2^32)`. -/
def u32cast (z : Int) : Nat := (z % 4294967296).toNat

/-- Wrapping `u32` subtraction (release-mode `a - b` on `u32`). -/
def u32sub (a b : Nat) : Nat := (((a : Int) - (b : Int)) % 4294967296).toNat

theorem wrap32s_lb (z : Int) : -2147483648 ≤ wrap32s z := by unfold wrap32s; omega

theorem wrap32s_ub (z : Int) : wrap32s z < 2147483648 := by unfold wrap32s; omega

theorem wrap32s_sub (z : Int) : ∃ k : Int, z - wrap32s z = 4294967296 * k :=
  ⟨(z + 2147483648) / 4294967296, by unfold wrap32s; omega⟩

theorem i32cast_u32_sub (n : Nat) : ∃ k : Int, (n : Int) - i32cast_u32 n = 4294967296 * k :=
  wrap32s_sub _

theorem u32cast_lt (z : Int) : u32cast z < 4294967296 := by unfold u32cast; omega

theorem u32cast_sub (z : Int) : ∃ k : Int, z - (u32cast z : Int) = 4294967296 * k :=
  ⟨z / 4294967296, by unfold u32cast; omega⟩

theorem u32sub_lt (a b : Nat) : u32sub a b < 4294967296 := by unfold u32sub; omega

theorem u32sub_sub (a b : Nat) :
    ∃ k : Int, ((a : Int) - (b : Int)) - (u32sub a b : Int) = 4294967296 * k :=
  ⟨((a : Int) - (b : Int)) / 4294967296, by unfold u32sub; omega⟩

/-! ## Bounds normalization (`screenshot_cache.rs`, lines 92-101)

`ScreenshotCache::capture_with_reused_buffer` clamps the requested rectangle
to the screen and rejects rectangles smaller than 10px after clamping:

```rust
let safe_x = bounds.x.max(0).min((screen_width as i32) - (bounds.width as i32));
let safe_width = bounds.width.min((screen_width as u32) - (safe_x as u32));
if safe_width < 10 || safe_height < 10 { return Err(...); }
```

The two axes are computed independently; `clampAxis` is the per-axis
computation and `normalize_bounds` the whole clamp-and-validate step. -/

/-- One axis of the clamping step: position `pos` (i32), extent `len` (u32),
screen extent `screen` (u32); returns `(safe_pos, safe_len)`. -/
def clampAxis (pos : Int) (len screen : Nat) : Int × Nat :=
  let d := wrap32s (i32cast_u32 screen - i32cast_u32 len)
  let safePos := min (max pos 0) d
  let safeLen := min len (u32sub screen (u32cast safePos))
  (safePos, safeLen)

/-- The clamp-and-validate normalization embedded in
`ScreenshotCache::capture_with_reused_buffer`: clamp both axes, then fail if
the clamped width or height is below 10. -/
def normalize_bounds (b : CaptureBounds) (screen_width screen_height : Nat) :
    Except String CaptureBounds :=
  if (clampAxis b.x b.width screen_width).2 < 10 ∨
     (clampAxis b.y b.height screen_height).2 < 10 then
    .error ("Capture area too small after adjustment: " ++
      toString (clampAxis b.x b.width screen_width).2 ++ "x" ++
      toString (clampAxis b.y b.height screen_height).2)
  else
    .ok ⟨(clampAxis b.x b.width screen_width).1,
         (clampAxis b.y b.height screen_height).1,
         (clampAxis b.x b.width screen_width).2,
         (clampAxis b.y b.height screen_height).2⟩

/-- The signed screen-minus-length difference computed by the clamping code
is congruent to `screen - len` mod `2^32`. -/
theorem screenDiff_sub (screen len : Nat) :
    ∃ k : Int, (screen : Int) - (len : Int)
      - wrap32s (i32cast_u32 screen - i32cast_u32 len) = 4294967296 * k := by
  obtain ⟨ka, hka⟩ := i32cast_u32_sub screen
  obtain ⟨kb, hkb⟩ := i32cast_u32_sub len
  obtain ⟨kz, hkz⟩ := wrap32s_sub (i32cast_u32 screen - i32cast_u32 len)
  exact ⟨ka - kb + kz, by omega⟩

/-- Arithmetic core of the per-axis fixed point, first component: the
re-clamped position equals the clamped position.  All congruences enter as
explicit multiples of `2^32`. -/
theorem clampAxis_core_fst (screen len : Nat) (pos d : Int) (u T : Nat) (d2 : Int)
    (hl : len < 4294967296)
    (hd1 : -2147483648 ≤ d) (hd2 : d < 2147483648)
    (k1 : Int) (h1 : (screen : Int) - len - d = 4294967296 * k1)
    (hu : u < 4294967296)
    (k2 : Int) (h2 : min (max pos 0) d - u = 4294967296 * k2)
    (hT : T < 4294967296)
    (k3 : Int) (h3 : (screen : Int) - u - T = 4294967296 * k3)
    (hd21 : -2147483648 ≤ d2) (hd22 : d2 < 2147483648)
    (k4 : Int) (h4 : (screen : Int) - (min len T : Nat) - d2 = 4294967296 * k4) :
    min (max (min (max pos 0) d) 0) d2 = min (max pos 0) d := by
  omega

/-- Arithmetic core of the per-axis fixed point, second component: the
re-clamped length equals the clamped length. -/
theorem clampAxis_core_snd (screen len : Nat) (pos d : Int) (u T : Nat) (d2 : Int) (u2 R : Nat)
    (hl : len < 4294967296)
    (hd1 : -2147483648 ≤ d) (hd2 : d < 2147483648)
    (k1 : Int) (h1 : (screen : Int) - len - d = 4294967296 * k1)
    (hu : u < 4294967296)
    (k2 : Int) (h2 : min (max pos 0) d - u = 4294967296 * k2)
    (hT : T < 4294967296)
    (k3 : Int) (h3 : (screen : Int) - u - T = 4294967296 * k3)
    (hd21 : -2147483648 ≤ d2) (hd22 : d2 < 2147483648)
    (k4 : Int) (h4 : (screen : Int) - (min len T : Nat) - d2 = 4294967296 * k4)
    (hu2 : u2 < 4294967296)
    (k5 : Int) (h5 : min (max (min (max pos 0) d) 0) d2 - u2 = 4294967296 * k5)
    (hR : R < 4294967296)
    (k6 : Int) (h6 : (screen : Int) - u2 - R = 4294967296 * k6) :
    min (min len T) R = min len T := by
  omega

/-- Per-axis fixed point: re-clamping the clamped output changes nothing,
provided the extent is a genuine `u32` value. -/
theorem clampAxis_idem (pos : Int) (len screen : Nat)
    (hl : len < 4294967296) :
    clampAxis (clampAxis pos len screen).1 (clampAxis pos len screen).2 screen
      = clampAxis pos len screen := by
  obtain ⟨k1, hk1⟩ := screenDiff_sub screen len
  obtain ⟨k2, hk2⟩ := u32cast_sub (min (max pos 0)
    (wrap32s (i32cast_u32 screen - i32cast_u32 len)))
  obtain ⟨k3, hk3⟩ := u32sub_sub screen (u32cast (min (max pos 0)
    (wrap32s (i32cast_u32 screen - i32cast_u32 len))))
  obtain ⟨k4, hk4⟩ := screenDiff_sub screen
    (min len (u32sub screen (u32cast (min (max pos 0)
      (wrap32s (i32cast_u32 screen - i32cast_u32 len))))))
  obtain ⟨k5, hk5⟩ := u32cast_sub (min (max (min (max pos 0)
      (wrap32s (i32cast_u32 screen - i32cast_u32 len))) 0)
    (wrap32s (i32cast_u32 screen - i32cast_u32 (min len (u32sub screen (u32cast (min (max pos 0)
      (wrap32s (i32cast_u32 screen - i32cast_u32 len)))))))))
  obtain ⟨k6, hk6⟩ := u32sub_sub screen (u32cast (min (max (min (max pos 0)
      (wrap32s (i32cast_u32 screen - i32cast_u32 len))) 0)
    (wrap32s (i32cast_u32 screen - i32cast_u32 (min len (u32sub screen (u32cast (min (max pos 0)
      (wrap32s (i32cast_u32 screen - i32cast_u32 len))))))))))
  have hg1 := clampAxis_core_fst screen len pos
    (wrap32s (i32cast_u32 screen - i32cast_u32 len))
    (u32cast (min (max pos 0) (wrap32s (i32cast_u32 screen - i32cast_u32 len))))
    (u32sub screen (u32cast (min (max pos 0)
      (wrap32s (i32cast_u32 screen - i32cast_u32 len)))))
    (wrap32s (i32cast_u32 screen - i32cast_u32 (min len (u32sub screen (u32cast (min (max pos 0)
      (wrap32s (i32cast_u32 screen - i32cast_u32 len))))))))
    hl (wrap32s_lb _) (wrap32s_ub _) k1 hk1 (u32cast_lt _) k2 hk2 (u32sub_lt _ _) k3 hk3
    (wrap32s_lb _) (wrap32s_ub _) k4 hk4
  have hg2 := clampAxis_core_snd screen len pos
    (wrap32s (i32cast_u32 screen - i32cast_u32 len))
    (u32cast (min (max pos 0) (wrap32s (i32cast_u32 screen - i32cast_u32 len))))
    (u32sub screen (u32cast (min (max pos 0)
      (wrap32s (i32cast_u32 screen - i32cast_u32 len)))))
    (wrap32s (i32cast_u32 screen - i32cast_u32 (min len (u32sub screen (u32cast (min (max pos 0)
      (wrap32s (i32cast_u32 screen - i32cast_u32 len))))))))
    (u32cast (min (max (min (max pos 0)
      (wrap32s (i32cast_u32 screen - i32cast_u32 len))) 0)
      (wrap32s (i32cast_u32 screen - i32cast_u32 (min len (u32sub screen (u32cast (min (max pos 0)
        (wrap32s (i32cast_u32 screen - i32cast_u32 len))))))))))
    (u32sub screen (u32cast (min (max (min (max pos 0)
      (wrap32s (i32cast_u32 screen - i32cast_u32 len))) 0)
      (wrap32s (i32cast_u32 screen - i32cast_u32 (min len (u32sub screen (u32cast (min (max pos 0)
        (wrap32s (i32cast_u32 screen - i32cast_u32 len)))))))))))
    hl (wrap32s_lb _) (wrap32s_ub _) k1 hk1 (u32cast_lt _) k2 hk2 (u32sub_lt _ _) k3 hk3
    (wrap32s_lb _) (wrap32s_ub _) k4 hk4 (u32cast_lt _) k5 hk5 (u32sub_lt _ _) k6 hk6
  show (min (max (min (max pos 0) (wrap32s (i32cast_u32 screen - i32cast_u32 len))) 0)
          (wrap32s (i32cast_u32 screen - i32cast_u32 (min len (u32sub screen (u32cast (min (max pos 0)
            (wrap32s (i32cast_u32 screen - i32cast_u32 len)))))))),
        min (min len (u32sub screen (u32cast (min (max pos 0)
            (wrap32s (i32cast_u32 screen - i32cast_u32 len))))))
          (u32sub screen (u32cast (min (max (min (max pos 0)
            (wrap32s (i32cast_u32 screen - i32cast_u32 len))) 0)
            (wrap32s (i32cast_u32 screen - i32cast_u32 (min len (u32sub screen (u32cast (min (max pos 0)
              (wrap32s (i32cast_u32 screen - i32cast_u32 len)))))))))))) =
       (min (max pos 0) (wrap32s (i32cast_u32 screen - i32cast_u32 len)),
        min len (u32sub screen (u32cast (min (max pos 0)
          (wrap32s (i32cast_u32 screen - i32cast_u32 len))))))
  rw [hg2, hg1]

/-- C9: Normalization is a fixed point.  For all raw bounds (with `u32`
extents) and screen sizes, applying the clamp-and-validate normalization to
its own successful output yields the same key: a second normalization
changes nothing and cannot fail. -/
theorem normalize_bounds_fixed_point (b b2 : CaptureBounds) (sw sh : Nat)
    (hw : b.width < 4294967296) (hh : b.height < 4294967296)
    (hok : normalize_bounds b sw sh = .ok b2) :
    normalize_bounds b2 sw sh = .ok b2 := by
  unfold normalize_bounds at hok
  split at hok
  · exact absurd hok (by simp)
  · rename_i hbig
    injection hok with hok
    subst hok
    unfold normalize_bounds
    rw [clampAxis_idem b.x b.width sw hw, clampAxis_idem b.y b.height sh hh]
    split
    · rename_i hc; exact absurd hc hbig
    · rfl

/-- Witness for C9 at a concrete input: `(-5, -7, 100, 200)` on a
`1000 x 1000` screen clamps to `(0, 0, 100, 200)`, and re-normalizing that
output returns it unchanged. -/
theorem normalize_bounds_fixed_point_witness :
    normalize_bounds ⟨-5, -7, 100, 200⟩ 1000 1000 = .ok ⟨0, 0, 100, 200⟩ ∧
    normalize_bounds ⟨0, 0, 100, 200⟩ 1000 1000 = .ok ⟨0, 0, 100, 200⟩ := by
  have e : normalize_bounds ⟨-5, -7, 100, 200⟩ 1000 1000 = .ok ⟨0, 0, 100, 200⟩ := rfl
  exact ⟨e, normalize_bounds_fixed_point ⟨-5, -7, 100, 200⟩ ⟨0, 0, 100, 200⟩ 1000 1000
    (by decide) (by decide) e⟩

/-! ## ScreenshotCache (`screenshot_cache.rs`)

The cache maps a `BoundsKey` to a cached base64 PNG payload.  The `HashMap`
is an association list without duplicate keys; `insert` removes any previous
binding before consing the new one, and iteration order is irrelevant to
every observable below (sums and sorted views).  The `screenshots` crate and
the PNG/base64 encoders are supplied through `CaptureEnv`; the third
component of each result counts how often `screen.capture_area` ran. -/

/-- Cache key from `screenshot_cache.rs`: the four raw bounds fields. -/
structure BoundsKey where
  x : Int
  y : Int
  width : Nat
  height : Nat
deriving DecidableEq, Repr

/-- `BoundsKey::from(bounds)`. -/
def BoundsKey.fromBounds (bounds : CaptureBounds) : BoundsKey :=
  ⟨bounds.x, bounds.y, bounds.width, bounds.height⟩

/-- `CachedCapture`: base64 PNG payload, capture timestamp, size in bytes. -/
structure CachedCapture where
  data : String
  captured_at : Nat
  size_bytes : Nat
deriving DecidableEq, Repr

/-- `ScreenInfo` (the unused `f64` field `scale_factor` is omitted). -/
structure ScreenInfo where
  width : Nat
  height : Nat
  cached_at : Nat
deriving DecidableEq, Repr

/-- `ScreenshotCache` state. -/
structure ScreenshotCache where
  cache : List (BoundsKey × CachedCapture)
  screen_info : Option ScreenInfo
  png_buffer : List Nat
  max_cache_size : Nat
  cache_ttl : Nat
deriving DecidableEq, Repr

/-- `ScreenshotCache::new()`: 50 MiB size bound, 30 s TTL. -/
def ScreenshotCache.new : ScreenshotCache :=
  ⟨[], none, [], 50 * 1024 * 1024, 30⟩

/-- A screen as reported by `screenshots::Screen::all()` (`display_info`). -/
structure Screen where
  width : Nat
  height : Nat
deriving DecidableEq, Repr

/-- External collaborators of the capture path: the `screenshots` crate
(screen enumeration and `capture_area`), PNG encoding, base64 encoding.
An abstract image handle is a `Nat`. -/
structure CaptureEnv where
  screens : Except String (List Screen)
  captureArea : Int → Int → Nat → Nat → Except String Nat
  toPng : Nat → Except String (List Nat)
  base64encode : List Nat → String

/-- `HashMap::get`. -/
def lookupCache (cache : List (BoundsKey × CachedCapture)) (k : BoundsKey) :
    Option CachedCapture :=
  (cache.find? fun p => decide (p.1 = k)).map Prod.snd

/-- `HashMap::remove`. -/
def eraseEntry (cache : List (BoundsKey × CachedCapture)) (k : BoundsKey) :
    List (BoundsKey × CachedCapture) :=
  cache.filter fun p => decide (p.1 ≠ k)

/-- `HashMap::insert` (replaces any previous binding of the key). -/
def insertEntry (cache : List (BoundsKey × CachedCapture)) (k : BoundsKey)
    (e : CachedCapture) : List (BoundsKey × CachedCapture) :=
  (k, e) :: cache.filter fun p => decide (p.1 ≠ k)

/-- `ScreenshotCache::get_total_cache_size`: sum of entry sizes. -/
def get_total_cache_size (self : ScreenshotCache) : Nat :=
  (self.cache.map fun p => p.2.size_bytes).sum

/-- Age ordering on cache entries (`sort_by_key(captured_at)`). -/
def ageLe (p q : BoundsKey × CachedCapture) : Prop :=
  p.2.captured_at ≤ q.2.captured_at

instance : DecidableRel ageLe := fun p q =>
  inferInstanceAs (Decidable (p.2.captured_at ≤ q.2.captured_at))

instance : IsTotal (BoundsKey × CachedCapture) ageLe :=
  ⟨fun p q => Nat.le_total p.2.captured_at q.2.captured_at⟩

instance : IsTrans (BoundsKey × CachedCapture) ageLe :=
  ⟨fun _ _ _ h1 h2 => Nat.le_trans h1 h2⟩

/-- The eviction loop of `evict_oldest_entries`: walk the age-sorted entries,
accumulating freed space, and keep collecting until at least `needed` bytes
are freed (the entry that crosses the threshold is still collected) or the
list is exhausted. -/
def selectEvict (needed : Nat) : Nat → List (BoundsKey × CachedCapture) →
    List (BoundsKey × CachedCapture)
  | _, [] => []
  | freed, p :: rest =>
    if needed ≤ freed + p.2.size_bytes then [p]
    else p :: selectEvict needed (freed + p.2.size_bytes) rest

/-- `ScreenshotCache::evict_oldest_entries`: sort entries by `captured_at`,
pick the oldest until `needed_space` bytes are freed, remove those keys. -/
def evict_oldest_entries (self : ScreenshotCache) (needed_space : Nat) :
    ScreenshotCache :=
  { self with cache := self.cache.filter (fun p =>
      decide (p.1 ∉ (selectEvict needed_space 0
        (List.insertionSort ageLe self.cache)).map Prod.fst)) }

/-- `ScreenshotCache::add_to_cache`: evict if the new entry would push the
total over `max_cache_size`, then insert. -/
def add_to_cache (now : Nat) (self : ScreenshotCache) (key : BoundsKey)
    (data : String) : ScreenshotCache :=
  let self1 := if self.max_cache_size < get_total_cache_size self + data.length
               then evict_oldest_entries self data.length else self
  { self1 with cache := insertEntry self1.cache key ⟨data, now, data.length⟩ }

/-- `ScreenshotCache::get_screen_info`. -/
def get_screen_info (env : CaptureEnv) (now : Nat) : Except String ScreenInfo :=
  match env.screens with
  | .error e => .error ("Failed to get screen info: " ++ e)
  | .ok screens =>
    match screens.head? with
    | some screen => .ok ⟨screen.width, screen.height, now⟩
    | none => .error "No screens available"

/-- `ScreenshotCache::capture_with_reused_buffer`: enumerate screens, clamp
and validate the bounds against the first screen, capture, PNG-encode into
the reused buffer, base64-encode.  The third result component counts
`capture_area` invocations. -/
def capture_with_reused_buffer (env : CaptureEnv) (self : ScreenshotCache)
    (bounds : CaptureBounds) : Except String String × ScreenshotCache × Nat :=
  match env.screens with
  | .error e => (.error ("Failed to access screens: " ++ e), self, 0)
  | .ok screens =>
    match screens.head? with
    | none => (.error "No screens available", self, 0)
    | some screen =>
      match normalize_bounds bounds screen.width screen.height with
      | .error e => (.error e, self, 0)
      | .ok sb =>
        match env.captureArea sb.x sb.y sb.width sb.height with
        | .error e => (.error ("Screen capture failed: " ++ e), self, 1)
        | .ok image =>
          match env.toPng image with
          | .error e => (.error ("PNG encoding failed: " ++ e), self, 1)
          | .ok png_data =>
            (.ok ("data:image/png;base64," ++ env.base64encode png_data),
             { self with png_buffer := png_data }, 1)

/-- Step 2 of `capture_optimized`: refresh the screen-info cache when absent
or older than 60 s; on failure the `?` operator aborts the call. -/
def refresh_screen_info (env : CaptureEnv) (now : Nat) (self : ScreenshotCache) :
    Except String ScreenshotCache :=
  match self.screen_info with
  | none =>
    match get_screen_info env now with
    | .error e => .error e
    | .ok si => .ok { self with screen_info := some si }
  | some si =>
    if 60 < now - si.cached_at then
      match get_screen_info env now with
      | .error e => .error e
      | .ok si2 => .ok { self with screen_info := some si2 }
    else .ok self

/-- Steps 2-4 of `capture_optimized`, run after the cache lookup missed (or
the stale entry was removed): refresh screen info, capture, insert. -/
def capture_after_lookup (env : CaptureEnv) (now : Nat) (self : ScreenshotCache)
    (bounds : CaptureBounds) (bounds_key : BoundsKey) :
    Except String String × ScreenshotCache × Nat :=
  match refresh_screen_info env now self with
  | .error e => (.error e, self, 0)
  | .ok self2 =>
    match capture_with_reused_buffer env self2 bounds with
    | (.error e, self3, n) => (.error e, self3, n)
    | (.ok image_data, self3, n) =>
      (.ok image_data, add_to_cache now self3 bounds_key image_data, n)

/-- `ScreenshotCache::capture_optimized`: return a fresh cached payload,
drop a stale one, then capture and cache. -/
def capture_optimized (env : CaptureEnv) (now : Nat) (self : ScreenshotCache)
    (bounds : CaptureBounds) : Except String String × ScreenshotCache × Nat :=
  match lookupCache self.cache (BoundsKey.fromBounds bounds) with
  | some cached =>
    if now - cached.captured_at < self.cache_ttl then
      (.ok cached.data, self, 0)
    else
      capture_after_lookup env now
        { self with cache := eraseEntry self.cache (BoundsKey.fromBounds bounds) }
        bounds (BoundsKey.fromBounds bounds)
  | none => capture_after_lookup env now self bounds (BoundsKey.fromBounds bounds)

/-- `ScreenshotCache::get_cache_stats`: entry count, total bytes, expired count. -/
def get_cache_stats (now : Nat) (self : ScreenshotCache) : Nat × Nat × Nat :=
  (self.cache.length, get_total_cache_size self,
   (self.cache.filter fun p => decide (self.cache_ttl < now - p.2.captured_at)).length)

/-- `ScreenshotCache::cleanup_expired`: retain entries younger than the TTL. -/
def cleanup_expired (now : Nat) (self : ScreenshotCache) : ScreenshotCache :=
  { self with cache := self.cache.filter (fun p =>
      decide (now - p.2.captured_at < self.cache_ttl)) }

/-! ### Helper lemmas about the cache operations -/

/-- Sum of entry sizes of an entry list. -/
def sumSize (l : List (BoundsKey × CachedCapture)) : Nat :=
  (l.map fun p => p.2.size_bytes).sum

theorem get_total_eq_sumSize (self : ScreenshotCache) :
    get_total_cache_size self = sumSize self.cache := rfl

theorem sumSize_sublist {l1 l2 : List (BoundsKey × CachedCapture)}
    (h : l1.Sublist l2) : sumSize l1 ≤ sumSize l2 := by
  induction h with
  | slnil => exact Nat.le_refl _
  | cons a h ih => simp only [sumSize, List.map_cons, List.sum_cons] at *; omega
  | cons₂ a h ih => simp only [sumSize, List.map_cons, List.sum_cons] at *; omega

theorem sumSize_perm {l1 l2 : List (BoundsKey × CachedCapture)}
    (h : l1.Perm l2) : sumSize l1 = sumSize l2 :=
  (h.map _).sum_eq

theorem sumSize_filter_split (l : List (BoundsKey × CachedCapture))
    (p : BoundsKey × CachedCapture → Bool) :
    sumSize (l.filter p) + sumSize (l.filter fun a => !(p a)) = sumSize l := by
  induction l with
  | nil => rfl
  | cons a l ih =>
    by_cases h : p a = true
    · rw [List.filter_cons_of_pos h, List.filter_cons_of_neg (by simp [h])]
      simp only [sumSize, List.map_cons, List.sum_cons] at *
      omega
    · rw [List.filter_cons_of_neg (by simp [h]), List.filter_cons_of_pos (by simp [h])]
      simp only [sumSize, List.map_cons, List.sum_cons] at *
      omega

theorem selectEvict_prefix (needed : Nat) :
    ∀ (l : List (BoundsKey × CachedCapture)) (freed : Nat),
      ∃ t, l = selectEvict needed freed l ++ t := by
  intro l
  induction l with
  | nil => exact fun _ => ⟨[], rfl⟩
  | cons p rest ih =>
    intro freed
    by_cases h : needed ≤ freed + p.2.size_bytes
    · exact ⟨rest, by simp [selectEvict, h]⟩
    · obtain ⟨t, ht⟩ := ih (freed + p.2.size_bytes)
      refine ⟨t, ?_⟩
      simp only [selectEvict, if_neg h, List.cons_append]
      exact congrArg (p :: ·) ht

theorem selectEvict_enough (needed : Nat) :
    ∀ (l : List (BoundsKey × CachedCapture)) (freed : Nat),
      needed ≤ freed + sumSize (selectEvict needed freed l) ∨
      selectEvict needed freed l = l := by
  intro l
  induction l with
  | nil => exact fun _ => Or.inr rfl
  | cons p rest ih =>
    intro freed
    by_cases h : needed ≤ freed + p.2.size_bytes
    · left
      simp only [selectEvict, if_pos h, sumSize, List.map_cons, List.map_nil,
        List.sum_cons, List.sum_nil]
      omega
    · rcases ih (freed + p.2.size_bytes) with h2 | h2
      · left
        simp only [selectEvict, if_neg h, sumSize, List.map_cons, List.sum_cons] at *
        omega
      · right
        simp only [selectEvict, if_neg h, h2]

/-- Under size pressure the eviction loop either frees at least the needed
space or empties the cache entirely. -/
theorem evict_oldest_entries_total (self : ScreenshotCache) (needed : Nat) :
    sumSize (evict_oldest_entries self needed).cache + needed ≤ sumSize self.cache ∨
    (evict_oldest_entries self needed).cache = [] := by
  have hperm : (List.insertionSort ageLe self.cache).Perm self.cache :=
    List.perm_insertionSort ageLe self.cache
  obtain ⟨t, ht⟩ := selectEvict_prefix needed (List.insertionSort ageLe self.cache) 0
  have hchosen_sub :
      (selectEvict needed 0 (List.insertionSort ageLe self.cache)).Sublist
        (List.insertionSort ageLe self.cache) := by
    conv_rhs => rw [ht]
    exact List.sublist_append_left _ _
  rcases selectEvict_enough needed (List.insertionSort ageLe self.cache) 0 with h | h
  · left
    set chosen := selectEvict needed 0 (List.insertionSort ageLe self.cache) with hch
    set K := chosen.map Prod.fst with hK
    have hsplit := sumSize_filter_split self.cache (fun p => decide (p.1 ∉ K))
    have hq : chosen.filter (fun p => !(decide (p.1 ∉ K))) = chosen := by
      apply List.filter_eq_self.mpr
      intro a ha
      simp only [Bool.not_eq_true', decide_eq_false_iff_not, Decidable.not_not]
      exact List.mem_map.mpr ⟨a, ha, rfl⟩
    have hle1 : sumSize chosen ≤
        sumSize (self.cache.filter fun p => !(decide (p.1 ∉ K))) := by
      calc sumSize chosen = sumSize (chosen.filter fun p => !(decide (p.1 ∉ K))) := by
              rw [hq]
        _ ≤ sumSize ((List.insertionSort ageLe self.cache).filter
              fun p => !(decide (p.1 ∉ K))) :=
              sumSize_sublist (hchosen_sub.filter _)
        _ = sumSize (self.cache.filter fun p => !(decide (p.1 ∉ K))) :=
              sumSize_perm (hperm.filter _)
    have hev : sumSize (evict_oldest_entries self needed).cache =
        sumSize (self.cache.filter fun p => decide (p.1 ∉ K)) := rfl
    omega
  · right
    show List.filter _ self.cache = []
    apply List.filter_eq_nil_iff.mpr
    intro p hp
    have hps : p ∈ List.insertionSort ageLe self.cache := hperm.mem_iff.mpr hp
    have hpk : p.1 ∈ (selectEvict needed 0 (List.insertionSort ageLe self.cache)).map Prod.fst := by
      rw [h]
      exact List.mem_map.mpr ⟨p, hps, rfl⟩
    simp only [decide_eq_true_eq]
    exact fun hcon => hcon hpk

theorem add_to_cache_max_eq (now : Nat) (self : ScreenshotCache) (key : BoundsKey)
    (data : String) :
    (add_to_cache now self key data).max_cache_size = self.max_cache_size := by
  simp only [add_to_cache]
  split <;> rfl

theorem add_to_cache_ttl_eq (now : Nat) (self : ScreenshotCache) (key : BoundsKey)
    (data : String) :
    (add_to_cache now self key data).cache_ttl = self.cache_ttl := by
  simp only [add_to_cache]
  split <;> rfl

theorem sumSize_insertEntry (cache : List (BoundsKey × CachedCapture))
    (k : BoundsKey) (e : CachedCapture) :
    sumSize (insertEntry cache k e) =
      e.size_bytes + sumSize (cache.filter fun p => decide (p.1 ≠ k)) := rfl

/-- Single-insertion step of the size bound: if the cache currently respects
its bound and the new payload alone fits in the bound, the cache still
respects the bound after `add_to_cache`. -/
theorem add_to_cache_total_le (now : Nat) (self : ScreenshotCache) (key : BoundsKey)
    (data : String)
    (h0 : get_total_cache_size self ≤ self.max_cache_size)
    (hd : data.length ≤ self.max_cache_size) :
    get_total_cache_size (add_to_cache now self key data) ≤ self.max_cache_size := by
  rw [get_total_eq_sumSize] at h0
  have hsz : ({ data := data, captured_at := now, size_bytes := data.length } :
      CachedCapture).size_bytes = data.length := rfl
  simp only [add_to_cache]
  split
  · rename_i hc
    rw [get_total_eq_sumSize] at hc
    show sumSize (insertEntry (evict_oldest_entries self data.length).cache key
        ⟨data, now, data.length⟩) ≤ self.max_cache_size
    rw [sumSize_insertEntry, hsz]
    have hfil : sumSize ((evict_oldest_entries self data.length).cache.filter
        fun p => decide (p.1 ≠ key)) ≤
        sumSize (evict_oldest_entries self data.length).cache :=
      sumSize_sublist (List.filter_sublist _)
    rcases evict_oldest_entries_total self data.length with he | he
    · omega
    · rw [he]
      simp only [List.filter_nil, sumSize, List.map_nil, List.sum_nil]
      omega
  · rename_i hc
    rw [get_total_eq_sumSize] at hc
    show sumSize (insertEntry self.cache key ⟨data, now, data.length⟩) ≤ self.max_cache_size
    rw [sumSize_insertEntry, hsz]
    have hfil : sumSize (self.cache.filter fun p => decide (p.1 ≠ key)) ≤
        sumSize self.cache :=
      sumSize_sublist (List.filter_sublist _)
    omega

/-- Folding a sequence of timed insertions into the image cache. -/
def insertAll (items : List (Nat × BoundsKey × String)) (self : ScreenshotCache) :
    ScreenshotCache :=
  items.foldl (fun s it => add_to_cache it.1 s it.2.1 it.2.2) self

/-- C2 (amended): for every sequence of insertions into the image cache in
which no single payload exceeds `max_cache_bytes`, the aggregate cached size
never exceeds `max_cache_bytes` after any insertion completes.  The original
claim fails when one payload alone exceeds the bound (see
`c2_counterexample`): eviction stops once the cache is empty and the
oversized entry is inserted anyway. -/
theorem total_cache_size_bounded (items : List (Nat × BoundsKey × String))
    (self : ScreenshotCache)
    (h0 : get_total_cache_size self ≤ self.max_cache_size)
    (hitems : ∀ it ∈ items, (it.2.2 : String).length ≤ self.max_cache_size) :
    get_total_cache_size (insertAll items self) ≤ self.max_cache_size := by
  induction items generalizing self with
  | nil => exact h0
  | cons it rest ih =>
    simp only [insertAll, List.foldl_cons]
    have hmax := add_to_cache_max_eq it.1 self it.2.1 it.2.2
    have hstep := add_to_cache_total_le it.1 self it.2.1 it.2.2 h0
      (hitems it (List.mem_cons_self it rest))
    have := ih (add_to_cache it.1 self it.2.1 it.2.2)
      (by rw [hmax]; exact hstep)
      (by intro j hj; rw [hmax]; exact hitems j (List.mem_cons_of_mem it hj))
    rw [hmax] at this
    exact this

theorem nodup_keys_inj (l : List (BoundsKey × CachedCapture))
    (h : (l.map Prod.fst).Nodup) :
    ∀ a ∈ l, ∀ b ∈ l, a.1 = b.1 → a = b := by
  induction l with
  | nil => intro a ha; exact absurd ha (List.not_mem_nil a)
  | cons p rest ih =>
    simp only [List.map_cons, List.nodup_cons] at h
    intro a ha b hb hab
    rcases List.mem_cons.mp ha with rfl | ha2
    · rcases List.mem_cons.mp hb with rfl | hb2
      · rfl
      · exact absurd (List.mem_map.mpr ⟨b, hb2, hab.symm⟩) h.1
    · rcases List.mem_cons.mp hb with rfl | hb2
      · exact absurd (List.mem_map.mpr ⟨a, ha2, hab⟩) h.1
      · exact ih h.2 a ha2 b hb2 hab

/-- C3: whenever the image cache evicts under size pressure, every evicted
entry is at least as old by `captured_at` as every entry that remains -
FIFO-by-capture-time, independent of hits (reachable caches have no
duplicate keys, which the `Nodup` hypothesis expresses). -/
theorem evict_oldest_entries_fifo (self : ScreenshotCache) (needed : Nat)
    (hnodup : (self.cache.map Prod.fst).Nodup) :
    ∀ p ∈ self.cache, p ∉ (evict_oldest_entries self needed).cache →
      ∀ q ∈ (evict_oldest_entries self needed).cache,
        p.2.captured_at ≤ q.2.captured_at := by
  intro p hp hpout q hq
  have hperm : (List.insertionSort ageLe self.cache).Perm self.cache :=
    List.perm_insertionSort ageLe self.cache
  have hsorted : List.Sorted ageLe (List.insertionSort ageLe self.cache) :=
    List.sorted_insertionSort ageLe self.cache
  obtain ⟨t, ht⟩ := selectEvict_prefix needed (List.insertionSort ageLe self.cache) 0
  set chosen := selectEvict needed 0 (List.insertionSort ageLe self.cache) with hch
  -- p was evicted, so its key is in the removed-key list
  have hpK : p.1 ∈ chosen.map Prod.fst := by
    by_contra hnot
    exact hpout (List.mem_filter.mpr ⟨hp, by simpa using hnot⟩)
  -- identify p with the chosen entry carrying its key
  obtain ⟨c, hc, hck⟩ := List.mem_map.mp hpK
  have hcs : c ∈ List.insertionSort ageLe self.cache := by
    rw [ht]; exact List.mem_append_left _ hc
  have hps : p ∈ List.insertionSort ageLe self.cache := hperm.mem_iff.mpr hp
  have hnds : ((List.insertionSort ageLe self.cache).map Prod.fst).Nodup :=
    ((hperm.map Prod.fst).symm).nodup hnodup
  have hpc : p = c := nodup_keys_inj _ hnds p hps c hcs hck.symm
  -- q survived, so q sits in the sorted suffix
  have hqmem : q ∈ self.cache ∧ q.1 ∉ chosen.map Prod.fst := by
    have := List.mem_filter.mp hq
    exact ⟨this.1, by simpa using this.2⟩
  have hqs : q ∈ List.insertionSort ageLe self.cache := hperm.mem_iff.mpr hqmem.1
  have hqt : q ∈ t := by
    rw [ht] at hqs
    rcases List.mem_append.mp hqs with hqc | hqt
    · exact absurd (List.mem_map.mpr ⟨q, hqc, rfl⟩) hqmem.2
    · exact hqt
  -- the sorted list is pairwise age-ordered across the prefix/suffix split
  have hpair := (List.pairwise_append.mp (by rw [← ht]; exact hsorted)).2.2
  exact hpc ▸ hpair c hc q hqt

/-- A payload one byte larger than the 50 MiB cache bound (counterexample
input for C2). -/
def oversizedPayload : String := String.mk (List.replicate 52428801 'a')

theorem oversizedPayload_length : oversizedPayload.length = 52428801 := by
  show (List.replicate 52428801 'a').length = 52428801
  exact List.length_replicate 52428801 'a'

theorem add_to_cache_new_total (now : Nat) (k : BoundsKey) (data : String) :
    get_total_cache_size (add_to_cache now ScreenshotCache.new k data)
      = data.length := by
  simp only [add_to_cache]
  split <;> rfl

/-- C2 counterexample: inserting a single payload of `50 MiB + 1` bytes into
the fresh cache leaves `total_cache_bytes > max_cache_bytes`, refuting the
claim's "including when a single new entry's size alone exceeds the
limit". -/
theorem c2_counterexample :
    ScreenshotCache.new.max_cache_size <
      get_total_cache_size (add_to_cache 0 ScreenshotCache.new ⟨0, 0, 10, 10⟩
        oversizedPayload) := by
  rw [add_to_cache_new_total 0 ⟨0, 0, 10, 10⟩ oversizedPayload, oversizedPayload_length]
  have hmax : ScreenshotCache.new.max_cache_size = 52428800 := rfl
  rw [hmax]
  norm_num

/-! ### Lemmas along the capture path -/

theorem lookupCache_insertEntry (cache : List (BoundsKey × CachedCapture))
    (k : BoundsKey) (e : CachedCapture) :
    lookupCache (insertEntry cache k e) k = some e := by
  simp [lookupCache, insertEntry, List.find?_cons_of_pos]

theorem refresh_screen_info_ok {env : CaptureEnv} {now : Nat}
    {self s2 : ScreenshotCache} (h : refresh_screen_info env now self = .ok s2) :
    s2.cache = self.cache ∧ s2.cache_ttl = self.cache_ttl ∧
    s2.max_cache_size = self.max_cache_size := by
  unfold refresh_screen_info at h
  split at h
  · split at h
    · exact absurd h (by simp)
    · injection h with h; subst h; exact ⟨rfl, rfl, rfl⟩
  · split at h
    · split at h
      · exact absurd h (by simp)
      · injection h with h; subst h; exact ⟨rfl, rfl, rfl⟩
    · injection h with h; subst h; exact ⟨rfl, rfl, rfl⟩

theorem capture_with_reused_buffer_state (env : CaptureEnv) (self : ScreenshotCache)
    (bounds : CaptureBounds) :
    (capture_with_reused_buffer env self bounds).2.1.cache = self.cache ∧
    (capture_with_reused_buffer env self bounds).2.1.cache_ttl = self.cache_ttl ∧
    (capture_with_reused_buffer env self bounds).2.1.max_cache_size = self.max_cache_size := by
  unfold capture_with_reused_buffer
  split
  · exact ⟨rfl, rfl, rfl⟩
  · split
    · exact ⟨rfl, rfl, rfl⟩
    · split
      · exact ⟨rfl, rfl, rfl⟩
      · split
        · exact ⟨rfl, rfl, rfl⟩
        · split
          · exact ⟨rfl, rfl, rfl⟩
          · exact ⟨rfl, rfl, rfl⟩

theorem capture_after_lookup_ok {env : CaptureEnv} {now : Nat}
    {s s2 : ScreenshotCache} {bounds : CaptureBounds} {k : BoundsKey}
    {v : String} {n : Nat}
    (h : capture_after_lookup env now s bounds k = (.ok v, s2, n)) :
    lookupCache s2.cache k = some ⟨v, now, v.length⟩ ∧
    s2.cache_ttl = s.cache_ttl := by
  unfold capture_after_lookup at h
  split at h
  · exact absurd h (by simp)
  · rename_i s3 hr
    split at h
    · exact absurd h (by simp)
    · rename_i img s4 n4 heq
      simp only [Prod.mk.injEq, Except.ok.injEq] at h
      obtain ⟨rfl, rfl, rfl⟩ := h
      have hcap := capture_with_reused_buffer_state env s3 bounds
      rw [heq] at hcap
      constructor
      · show lookupCache (add_to_cache now s4 k img).cache k = _
        simp only [add_to_cache]
        exact lookupCache_insertEntry _ _ _
      · have h1 : (add_to_cache now s4 k img).cache_ttl = s4.cache_ttl :=
          add_to_cache_ttl_eq now s4 k img
        have h2 := (refresh_screen_info_ok hr).2.1
        simp only at hcap
        omega

theorem capture_after_lookup_error {env : CaptureEnv} {now : Nat}
    {s s2 : ScreenshotCache} {bounds : CaptureBounds} {k : BoundsKey}
    {e : String} {n : Nat}
    (h : capture_after_lookup env now s bounds k = (.error e, s2, n)) :
    s2.cache = s.cache := by
  unfold capture_after_lookup at h
  split at h
  · simp only [Prod.mk.injEq] at h
    exact h.2.1 ▸ rfl
  · rename_i s3 hr
    split at h
    · rename_i err s4 n4 heq
      simp only [Prod.mk.injEq] at h
      obtain ⟨-, rfl, -⟩ := h
      have hcap := capture_with_reused_buffer_state env s3 bounds
      rw [heq] at hcap
      simp only at hcap
      rw [hcap.1, (refresh_screen_info_ok hr).1]
    · exact absurd h (by simp)

/-- C1: image-cache hit.  If `capture_optimized` returns `Ok v` for some
bounds, an immediate second call with the same bounds - against any
environment, in particular one whose capture function would return a
different value - still returns `v`, leaves the state untouched, and never
invokes the capture function (its invocation count for the second call
is 0, so the total count stays at the first call's value). -/
theorem capture_optimized_cache_hit (env env2 : CaptureEnv) (now : Nat)
    (self : ScreenshotCache) (bounds : CaptureBounds) (v : String)
    (self2 : ScreenshotCache) (n : Nat)
    (ht : 0 < self.cache_ttl)
    (h : capture_optimized env now self bounds = (.ok v, self2, n)) :
    capture_optimized env2 now self2 bounds = (.ok v, self2, 0) := by
  unfold capture_optimized at h
  split at h
  · rename_i cached heq
    split at h
    · rename_i hf
      simp only [Prod.mk.injEq, Except.ok.injEq] at h
      obtain ⟨hv, hs, hn⟩ := h
      subst hv
      subst hs
      unfold capture_optimized
      simp only [heq]
      rw [if_pos hf]
    · rename_i hf
      obtain ⟨hfind, httl⟩ := capture_after_lookup_ok h
      have h3 : ({self with cache := eraseEntry self.cache (BoundsKey.fromBounds bounds)} :
          ScreenshotCache).cache_ttl = self.cache_ttl := rfl
      have hcond : now - now < self2.cache_ttl := by omega
      unfold capture_optimized
      simp only [hfind]
      rw [if_pos hcond]
  · rename_i heq
    obtain ⟨hfind, httl⟩ := capture_after_lookup_ok h
    have hcond : now - now < self2.cache_ttl := by omega
    unfold capture_optimized
    simp only [hfind]
    rw [if_pos hcond]

def demoEnvA : CaptureEnv :=
  ⟨.ok [⟨1000, 1000⟩], fun _ _ _ _ => .ok 0, fun _ => .ok [1], fun _ => "IMG"⟩

def demoEnvB : CaptureEnv :=
  ⟨.ok [⟨1000, 1000⟩], fun _ _ _ _ => .ok 1, fun _ => .ok [2], fun _ => "OTHER"⟩

/-- Witness for C1: a concrete first call capturing "IMG"; the second call
against an environment that would produce "OTHER" still returns the cached
payload with capture count 0. -/
theorem capture_optimized_cache_hit_witness :
    0 < ScreenshotCache.new.cache_ttl ∧
    capture_optimized demoEnvB 5
        (capture_optimized demoEnvA 5 ScreenshotCache.new ⟨0, 0, 100, 100⟩).2.1
        ⟨0, 0, 100, 100⟩
      = (.ok "data:image/png;base64,IMG",
         (capture_optimized demoEnvA 5 ScreenshotCache.new ⟨0, 0, 100, 100⟩).2.1, 0) := by
  have h : capture_optimized demoEnvA 5 ScreenshotCache.new ⟨0, 0, 100, 100⟩
      = (.ok "data:image/png;base64,IMG",
         (capture_optimized demoEnvA 5 ScreenshotCache.new ⟨0, 0, 100, 100⟩).2.1,
         (capture_optimized demoEnvA 5 ScreenshotCache.new ⟨0, 0, 100, 100⟩).2.2) := rfl
  exact ⟨by decide, capture_optimized_cache_hit demoEnvA demoEnvB 5 ScreenshotCache.new
    ⟨0, 0, 100, 100⟩ "data:image/png;base64,IMG" _ _ (by decide) h⟩

/-- C4 (amended): capture-failure atomicity.  If `capture_optimized` returns
an error, no entry is inserted: the cache map is unchanged, except that when
the lookup found an expired entry for the requested key, that stale entry
has been removed (`c4_counterexample` shows the original claim's "state left
unchanged" fails in exactly that case).  The rasterizer failure reason is
surfaced to the caller inside the returned error. -/
theorem capture_optimized_error_state (env : CaptureEnv) (now : Nat)
    (self : ScreenshotCache) (bounds : CaptureBounds) (e : String)
    (self2 : ScreenshotCache) (n : Nat)
    (h : capture_optimized env now self bounds = (.error e, self2, n)) :
    self2.cache = self.cache ∨
    (∃ c, lookupCache self.cache (BoundsKey.fromBounds bounds) = some c ∧
      self.cache_ttl ≤ now - c.captured_at ∧
      self2.cache = eraseEntry self.cache (BoundsKey.fromBounds bounds)) := by
  unfold capture_optimized at h
  split at h
  · rename_i cached heq
    split at h
    · exact absurd h (by simp)
    · rename_i hf
      right
      exact ⟨cached, heq, Nat.le_of_not_lt hf, capture_after_lookup_error h⟩
  · rename_i heq
    left
    exact capture_after_lookup_error h

def failEnv : CaptureEnv :=
  ⟨.ok [⟨1000, 1000⟩], fun _ _ _ _ => .error "boom", fun _ => .ok [], fun _ => ""⟩

def staleState : ScreenshotCache :=
  { ScreenshotCache.new with cache := [(⟨0, 0, 100, 100⟩, ⟨"old", 0, 3⟩)] }

/-- C4 counterexample: with an expired entry present for the key and a
failing rasterizer, `capture_optimized` surfaces the error but the cache is
NOT left unchanged - the stale entry has been removed. -/
theorem c4_counterexample :
    (capture_optimized failEnv 100 staleState ⟨0, 0, 100, 100⟩).1
        = .error "Screen capture failed: boom" ∧
    (capture_optimized failEnv 100 staleState ⟨0, 0, 100, 100⟩).2.1.cache = [] ∧
    staleState.cache ≠ [] :=
  ⟨rfl, rfl, by decide⟩

/-- Witness for C2 at a concrete input: one small insertion into the fresh
cache keeps the total within the bound. -/
theorem total_cache_size_bounded_witness :
    get_total_cache_size (insertAll [(0, ⟨0, 0, 10, 10⟩, "ab")] ScreenshotCache.new)
      ≤ ScreenshotCache.new.max_cache_size :=
  total_cache_size_bounded [(0, ⟨0, 0, 10, 10⟩, "ab")] ScreenshotCache.new
    (by decide) (by decide)

/-- Two-entry cache used by the C3 witness. -/
def fifoState : ScreenshotCache :=
  { ScreenshotCache.new with cache :=
      [(⟨0, 0, 10, 10⟩, ⟨"a", 5, 7⟩), (⟨1, 0, 10, 10⟩, ⟨"b", 2, 7⟩)] }

/-- Witness for C3 at a concrete input: evicting 7 bytes from `fifoState`
removes the entry captured at time 2 and keeps the one captured at time 5,
and the evicted entry is the older one. -/
theorem evict_oldest_entries_fifo_witness :
    ((⟨1, 0, 10, 10⟩, ⟨"b", 2, 7⟩) : BoundsKey × CachedCapture).2.captured_at ≤
    ((⟨0, 0, 10, 10⟩, ⟨"a", 5, 7⟩) : BoundsKey × CachedCapture).2.captured_at :=
  evict_oldest_entries_fifo fifoState 7 (by decide)
    (⟨1, 0, 10, 10⟩, ⟨"b", 2, 7⟩) (by decide) (by decide)
    (⟨0, 0, 10, 10⟩, ⟨"a", 5, 7⟩) (by decide)

/-- Witness for C4 (amended) at the concrete stale-entry input: the error
path leaves the cache equal to the original with the stale entry erased. -/
theorem capture_optimized_error_state_witness :
    (capture_optimized failEnv 100 staleState ⟨0, 0, 100, 100⟩).2.1.cache
        = staleState.cache ∨
    (∃ c, lookupCache staleState.cache (BoundsKey.fromBounds ⟨0, 0, 100, 100⟩) = some c ∧
      staleState.cache_ttl ≤ 100 - c.captured_at ∧
      (capture_optimized failEnv 100 staleState ⟨0, 0, 100, 100⟩).2.1.cache
        = eraseEntry staleState.cache (BoundsKey.fromBounds ⟨0, 0, 100, 100⟩)) := by
  have h : capture_optimized failEnv 100 staleState ⟨0, 0, 100, 100⟩
      = (.error "Screen capture failed: boom",
         (capture_optimized failEnv 100 staleState ⟨0, 0, 100, 100⟩).2.1,
         (capture_optimized failEnv 100 staleState ⟨0, 0, 100, 100⟩).2.2) := rfl
  exact capture_optimized_error_state failEnv 100 staleState ⟨0, 0, 100, 100⟩
    "Screen capture failed: boom" _ _ h

/-! ## SelectionOverlay (`selection_overlay.rs`)

The drag-selection state machine.  Mouse positions are `f64` in the source;
they are modelled at integer-valued coordinates (`Int`), where the `f64`
operations used (`min`, subtraction, `abs`) are exact and the saturating
Rust float-to-integer casts `as i32` / `as u32` become explicit clamps. -/

/-- `MousePosition` (`f64` fields, modelled at integer values). -/
structure MousePosition where
  x : Int
  y : Int
deriving DecidableEq, Repr

/-- Saturating `as i32` cast of an integer-valued `f64`. -/
def f64_as_i32 (v : Int) : Int := max (-2147483648) (min v 2147483647)

/-- Saturating `as u32` cast of an integer-valued `f64`. -/
def f64_as_u32 (v : Int) : Nat := (min (max v 0) 4294967295).toNat

/-- `SelectionOverlay::calculate_bounds`: top-left corner is the pointwise
minimum, extents are absolute differences. -/
def calculate_bounds (start stop : MousePosition) : CaptureBounds :=
  { x := f64_as_i32 (min start.x stop.x)
    y := f64_as_i32 (min start.y stop.y)
    width := f64_as_u32 |start.x - stop.x|
    height := f64_as_u32 |start.y - stop.y| }

/-- `SelectionState`. -/
structure SelectionState where
  is_selecting : Bool
  start_pos : Option MousePosition
  current_pos : Option MousePosition
  selection_bounds : Option CaptureBounds
deriving DecidableEq, Repr

/-- `SelectionState::default()`: the idle session. -/
def SelectionState.default : SelectionState := ⟨false, none, none, none⟩

/-- `SelectionResult`. -/
structure SelectionResult where
  bounds : CaptureBounds
  image_data : String
  cancelled : Bool
deriving DecidableEq, Repr

/-- Modelled from the spec: the missing `screen_capture.rs` defines
`CaptureResult`, of which `end_drag` reads the `bounds` and `image_data`
fields of a successful rasterization (spec §6, `Rasterizer.capture`). -/
structure CaptureResult where
  bounds : CaptureBounds
  image_data : String
deriving DecidableEq, Repr

/-- `SelectionOverlay::start_drag`: unconditionally begins a new gesture at
`pos`, clearing the current position and bounds; always returns `Ok(())`. -/
def start_drag (pos : MousePosition) (state : SelectionState) :
    Except String Unit × SelectionState :=
  (.ok (), ⟨true, some pos, none, none⟩)

/-- `SelectionOverlay::update_mouse_position`: while selecting, record the
position and recompute the provisional bounds from the anchor. -/
def update_mouse_position (pos : MousePosition) (state : SelectionState) :
    Except String Unit × SelectionState :=
  if state.is_selecting then
    (.ok (), { state with
      current_pos := some pos,
      selection_bounds := match state.start_pos with
        | some sp => some (calculate_bounds sp pos)
        | none => state.selection_bounds })
  else
    (.ok (), state)

/-- `SelectionOverlay::cancel_selection`: reset everything. -/
def cancel_selection (state : SelectionState) :
    Except String Unit × SelectionState :=
  (.ok (), ⟨false, none, none, none⟩)

/-- `SelectionOverlay::end_drag`: if no drag is active return `Ok(None)`;
otherwise take the provisional bounds, reset the session, and then either
report a too-small cancelled selection, rasterize through the external
`ScreenCapture::capture_region` collaborator, or surface its failure. -/
def end_drag (capture_region : CaptureBounds → Except String CaptureResult)
    (state : SelectionState) :
    Except String (Option SelectionResult) × SelectionState :=
  if state.is_selecting then
    match state.selection_bounds with
    | some bounds =>
      if bounds.width < 5 ∨ bounds.height < 5 then
        (.ok (some ⟨bounds, "", true⟩), ⟨false, none, none, none⟩)
      else
        match capture_region bounds with
        | .ok capture_result =>
          (.ok (some ⟨capture_result.bounds, capture_result.image_data, false⟩),
           ⟨false, none, none, none⟩)
        | .error e =>
          (.error ("Failed to capture selection: " ++ e), ⟨false, none, none, none⟩)
    | none => (.ok none, ⟨false, none, none, none⟩)
  else
    (.ok none, state)

/-- The session states reachable from the idle session through the public
operations (any rasterizer outcome included). -/
inductive ReachableSel : SelectionState → Prop where
  | init : ReachableSel SelectionState.default
  | start (pos : MousePosition) (s : SelectionState) :
      ReachableSel s → ReachableSel (start_drag pos s).2
  | update (pos : MousePosition) (s : SelectionState) :
      ReachableSel s → ReachableSel (update_mouse_position pos s).2
  | finish (f : CaptureBounds → Except String CaptureResult) (s : SelectionState) :
      ReachableSel s → ReachableSel (end_drag f s).2
  | cancel (s : SelectionState) :
      ReachableSel s → ReachableSel (cancel_selection s).2

/-- Reachable idle sessions are fully cleared. -/
theorem reachable_idle_clear (s : SelectionState) (h : ReachableSel s) :
    s.is_selecting = false → s = SelectionState.default := by
  induction h with
  | init => intro; rfl
  | start pos s hs ih => intro hc; exact absurd hc (by simp [start_drag])
  | update pos s hs ih =>
    by_cases hsel : s.is_selecting
    · intro hc
      simp only [update_mouse_position, if_pos hsel] at hc
      exact absurd hc (by simpa using hsel)
    · simp only [update_mouse_position, if_neg hsel]
      exact ih
  | finish f s hs ih =>
    by_cases hsel : s.is_selecting
    · simp only [end_drag, if_pos hsel]
      rcases s.selection_bounds with _ | bounds
      · intro; rfl
      · simp only
        split
        · intro; rfl
        · split <;> (intro; rfl)
    · simp only [end_drag, if_neg hsel]
      exact ih
  | cancel s hs ih => intro; rfl

/-- C6 counterexample: `begin_drag({0,0})`, `update({2,2})`, `end_drag()` does
NOT return `Ok(None)` - the code returns `Ok(Some(SelectionResult))` with
`cancelled = true` and empty image data (the session does end up idle). -/
theorem c6_counterexample :
    (end_drag (fun _ => .error "no capture")
        (update_mouse_position ⟨2, 2⟩ (start_drag ⟨0, 0⟩ SelectionState.default).2).2).1
      = .ok (some ⟨⟨0, 0, 2, 2⟩, "", true⟩) ∧
    (.ok (some ⟨⟨0, 0, 2, 2⟩, "", true⟩) :
        Except String (Option SelectionResult)) ≠ .ok none ∧
    (end_drag (fun _ => .error "no capture")
        (update_mouse_position ⟨2, 2⟩ (start_drag ⟨0, 0⟩ SelectionState.default).2).2).2
      = SelectionState.default := by
  refine ⟨rfl, ?_, rfl⟩
  simp

/-- C6 (amended): small-selection outcome.  If a drag is active and the
provisional bounds have width < 5 or height < 5, `end_drag` returns
`Ok(Some(SelectionResult { bounds, image_data: "", cancelled: true }))` -
not `Ok(None)` as claimed - and the session is reset to idle (all positions
and bounds cleared); no capture is attempted. -/
theorem end_drag_small_selection (f : CaptureBounds → Except String CaptureResult)
    (state : SelectionState) (b : CaptureBounds)
    (hsel : state.is_selecting = true)
    (hb : state.selection_bounds = some b)
    (hsmall : b.width < 5 ∨ b.height < 5) :
    end_drag f state = (.ok (some ⟨b, "", true⟩), SelectionState.default) := by
  simp only [end_drag, hsel, if_true, hb, if_pos hsmall]
  rfl

/-- Witness for C6 (amended) at the claim's concrete gesture. -/
theorem end_drag_small_selection_witness :
    end_drag (fun _ => .error "no capture")
        (⟨true, some ⟨0, 0⟩, some ⟨2, 2⟩, some ⟨0, 0, 2, 2⟩⟩ : SelectionState)
      = (.ok (some ⟨⟨0, 0, 2, 2⟩, "", true⟩), SelectionState.default) :=
  end_drag_small_selection (fun _ => .error "no capture")
    ⟨true, some ⟨0, 0⟩, some ⟨2, 2⟩, some ⟨0, 0, 2, 2⟩⟩ ⟨0, 0, 2, 2⟩
    rfl rfl (by decide)

/-- C7 counterexample: calling `start_drag` while a drag is already in
progress is observably NOT a no-op error - it returns `Ok(())` and
overwrites the in-progress gesture's anchor (from `(0,0)` to `(5,5)`). -/
theorem c7_counterexample :
    (start_drag ⟨5, 5⟩ (start_drag ⟨0, 0⟩ SelectionState.default).2).1 = .ok () ∧
    (start_drag ⟨0, 0⟩ SelectionState.default).2.is_selecting = true ∧
    (start_drag ⟨0, 0⟩ SelectionState.default).2.start_pos = some ⟨0, 0⟩ ∧
    (start_drag ⟨5, 5⟩ (start_drag ⟨0, 0⟩ SelectionState.default).2).2.start_pos
      = some ⟨5, 5⟩ :=
  ⟨rfl, rfl, rfl, rfl⟩

/-- C7 (amended): `start_drag` has no precondition.  Called from any state -
in particular while a drag is already in progress - it returns `Ok(())` (no
`InvalidTransition` error exists in the code) and re-initializes the
gesture: the anchor becomes the new point and the current position and
bounds are cleared. -/
theorem start_drag_overwrites (pos : MousePosition) (state : SelectionState)
    (hsel : state.is_selecting = true) :
    start_drag pos state = (.ok (), ⟨true, some pos, none, none⟩) := rfl

/-- Witness for C7 (amended) at a concrete mid-drag state. -/
theorem start_drag_overwrites_witness :
    start_drag ⟨5, 5⟩ (start_drag ⟨0, 0⟩ SelectionState.default).2
      = (.ok (), ⟨true, some ⟨5, 5⟩, none, none⟩) :=
  start_drag_overwrites ⟨5, 5⟩ (start_drag ⟨0, 0⟩ SelectionState.default).2 rfl

/-- C10: `end_drag` unconditionally resets the session before attempting any
capture.  For every reachable session state and every rasterizer outcome
(`Ok(None)`, successful capture, or failure returning `Err`), the session
after `end_drag` is idle: `is_selecting = false` and `start_pos`,
`current_pos`, `selection_bounds` all `None`. -/
theorem end_drag_resets (f : CaptureBounds → Except String CaptureResult)
    (s : SelectionState) (h : ReachableSel s) :
    (end_drag f s).2 = SelectionState.default := by
  by_cases hsel : s.is_selecting
  · simp only [end_drag, if_pos hsel]
    rcases s.selection_bounds with _ | bounds
    · rfl
    · simp only
      split
      · rfl
      · split <;> rfl
  · have hd := reachable_idle_clear s h (by simpa using hsel)
    subst hd
    rfl

/-- Witness for C10 at a concrete gesture whose capture fails: after
`begin_drag({0,0})`, `update({100,100})` and an `end_drag` whose rasterizer
errors, the session is fully idle. -/
theorem end_drag_resets_witness :
    (end_drag (fun _ => .error "boom")
        (update_mouse_position ⟨100, 100⟩ (start_drag ⟨0, 0⟩ SelectionState.default).2).2).2
      = SelectionState.default :=
  end_drag_resets (fun _ => .error "boom") _
    (ReachableSel.update ⟨100, 100⟩ _
      (ReachableSel.start ⟨0, 0⟩ _ ReachableSel.init))

/-! ## PermissionCache (`permission_cache.rs`) -/

/-- `Permission` kinds. -/
inductive Permission where
  | ScreenRecording
  | Accessibility
  | FullDiskAccess
deriving DecidableEq, Repr

/-- `PermissionResult` record stored per kind. -/
structure PermissionResult where
  granted : Bool
  checked_at : Nat
  expires_at : Nat
deriving DecidableEq, Repr

/-- `PermissionCache` state. -/
structure PermissionCache where
  cache : List (Permission × PermissionResult)
  default_ttl : Nat
deriving DecidableEq, Repr

/-- `PermissionCache::new()`: 300 s (5 min) TTL. -/
def PermissionCache.new : PermissionCache := ⟨[], 300⟩

/-- `HashMap::get` for the permission map. -/
def lookupPerm (cache : List (Permission × PermissionResult)) (perm : Permission) :
    Option PermissionResult :=
  (cache.find? fun p => decide (p.1 = perm)).map Prod.snd

/-- `HashMap::insert` for the permission map. -/
def insertPerm (cache : List (Permission × PermissionResult)) (perm : Permission)
    (r : PermissionResult) : List (Permission × PermissionResult) :=
  (perm, r) :: cache.filter fun p => decide (p.1 ≠ perm)

/-- `PermissionCache::check_permission_native_sync`: the native probe defers
to OS prompts and returns `Ok(true)` for every kind in the source. -/
def check_permission_native_sync (perm : Permission) : Except String Bool :=
  match perm with
  | .ScreenRecording => .ok true
  | .Accessibility => .ok true
  | .FullDiskAccess => .ok true

/-- The probe-and-store path of `check_permission_cached` (the code after
the cache check).  The third component counts probe invocations. -/
def check_permission_probe (now : Nat) (self : PermissionCache) (perm : Permission) :
    Except String Bool × PermissionCache × Nat :=
  match check_permission_native_sync perm with
  | .error e => (.error e, self, 1)
  | .ok granted =>
    (.ok granted,
     { self with cache := (insertPerm self.cache perm
         ⟨granted, now, now + self.default_ttl⟩) }, 1)

/-- `PermissionCache::check_permission_cached`: return the cached grant when
the record is unexpired (`now < expires_at`); otherwise probe once and store
the result with `checked_at = now`, `expires_at = now + TTL`. -/
def check_permission_cached (now : Nat) (self : PermissionCache) (perm : Permission) :
    Except String Bool × PermissionCache × Nat :=
  match lookupPerm self.cache perm with
  | some cached =>
    if now < cached.expires_at then
      (.ok cached.granted, self, 0)
    else
      check_permission_probe now self perm
  | none => check_permission_probe now self perm

/-- `PermissionCache::get_cache_stats`: total and lazily-counted expired. -/
def perm_cache_stats (now : Nat) (self : PermissionCache) : Nat × Nat :=
  (self.cache.length,
   (self.cache.filter fun p => decide (p.2.expires_at ≤ now)).length)

/-- `PermissionCache::cleanup_expired`: retain unexpired records. -/
def perm_cleanup_expired (now : Nat) (self : PermissionCache) : PermissionCache :=
  { self with cache := self.cache.filter (fun p =>
      decide (now < p.2.expires_at)) }

/-- The probe always reports `Ok(true)` in the source. -/
theorem check_permission_native_sync_ok (perm : Permission) :
    check_permission_native_sync perm = .ok true := by
  cases perm <;> rfl

/-- C5: permission-cache contract.  (1) With an unexpired record
(`now < expires_at`) the cached grant is returned, the state is untouched
and the probe is not performed.  (2) Otherwise the probe runs exactly once
and its result is stored with `checked_at = now`,
`expires_at = now + TTL`.  (3) Hence from a fresh cache (TTL 300 s) the
probe count is 1 after a first check, still 1 after a second check within
the TTL, and 2 after a third check past the TTL. -/
theorem check_permission_cached_contract (self : PermissionCache)
    (perm : Permission) (now : Nat) :
    (∀ rec, lookupPerm self.cache perm = some rec → now < rec.expires_at →
      check_permission_cached now self perm = (.ok rec.granted, self, 0)) ∧
    ((∀ rec, lookupPerm self.cache perm = some rec → rec.expires_at ≤ now) →
      check_permission_cached now self perm =
        (.ok true,
         { self with cache := insertPerm self.cache perm ⟨true, now, now + self.default_ttl⟩ },
         1)) ∧
    (∀ t0 t1 t2 : Nat, t0 ≤ t1 → t1 < t0 + 300 → t0 + 300 ≤ t2 →
      (check_permission_cached t0 PermissionCache.new perm).2.2 = 1 ∧
      (check_permission_cached t1
        (check_permission_cached t0 PermissionCache.new perm).2.1 perm).2.2 = 0 ∧
      (check_permission_cached t2
        (check_permission_cached t1
          (check_permission_cached t0 PermissionCache.new perm).2.1 perm).2.1
        perm).2.2 = 1) := by
  refine ⟨?_, ?_, ?_⟩
  · intro rec hrec hfresh
    unfold check_permission_cached
    simp only [hrec]
    rw [if_pos hfresh]
  · intro hexp
    unfold check_permission_cached
    cases hl : lookupPerm self.cache perm with
    | some cached =>
      simp only
      rw [if_neg (Nat.not_lt.mpr (hexp cached hl))]
      unfold check_permission_probe
      rw [check_permission_native_sync_ok]
    | none =>
      simp only
      unfold check_permission_probe
      rw [check_permission_native_sync_ok]
  · intro t0 t1 t2 h01 h1in h2out
    have e1 : check_permission_cached t0 PermissionCache.new perm =
        (.ok true, ⟨[(perm, ⟨true, t0, t0 + 300⟩)], 300⟩, 1) := by
      unfold check_permission_cached
      show check_permission_probe t0 PermissionCache.new perm = _
      unfold check_permission_probe
      rw [check_permission_native_sync_ok]
      rfl
    rw [e1]
    have hlook : lookupPerm [(perm, ⟨true, t0, t0 + 300⟩)] perm
        = some ⟨true, t0, t0 + 300⟩ := by
      simp [lookupPerm, List.find?_cons_of_pos]
    have e2 : check_permission_cached t1
        (⟨[(perm, ⟨true, t0, t0 + 300⟩)], 300⟩ : PermissionCache) perm =
        (.ok true, ⟨[(perm, ⟨true, t0, t0 + 300⟩)], 300⟩, 0) := by
      unfold check_permission_cached
      simp only [hlook]
      rw [if_pos h1in]
    rw [e2]
    have e3 : (check_permission_cached t2
        (⟨[(perm, ⟨true, t0, t0 + 300⟩)], 300⟩ : PermissionCache) perm).2.2 = 1 := by
      unfold check_permission_cached
      simp only [hlook]
      rw [if_neg (by omega)]
      unfold check_permission_probe
      rw [check_permission_native_sync_ok]
    exact ⟨rfl, rfl, e3⟩

/-- Witness for C5: the three-check scenario at concrete times 0, 10, 300
for the screen-recording permission - probe counts 1, 0, 1. -/
theorem check_permission_cached_contract_witness :
    (check_permission_cached 0 PermissionCache.new Permission.ScreenRecording).2.2 = 1 ∧
    (check_permission_cached 10
      (check_permission_cached 0 PermissionCache.new Permission.ScreenRecording).2.1
      Permission.ScreenRecording).2.2 = 0 ∧
    (check_permission_cached 300
      (check_permission_cached 10
        (check_permission_cached 0 PermissionCache.new Permission.ScreenRecording).2.1
        Permission.ScreenRecording).2.1
      Permission.ScreenRecording).2.2 = 1 :=
  (check_permission_cached_contract PermissionCache.new Permission.ScreenRecording 0).2.2
    0 10 300 (by decide) (by decide) (by decide)

/-! ## OverlayManager (`overlay_manager.rs`)

The overlay pool holds at most one Tauri webview window.  The window type is
abstract; the builder (`create_react_overlay_once`, including its
screen-size fallback) and the window's `show`/`hide`/`close` calls are
supplied through `OverlayEnv`.  The third component of `show`'s result
counts invocations of the external create function. -/

/-- `OverlayManager` state. -/
structure OverlayManager (Window : Type) where
  overlay_window : Option Window
  is_active : Bool
  last_used : Option Nat

/-- `OverlayManager::new()`. -/
def OverlayManager.new (Window : Type) : OverlayManager Window :=
  ⟨none, false, none⟩

/-- External windowing collaborators: the webview builder and the window
handle's operations (`set_focus` results are logged and ignored by the
source, so they are not modelled). -/
structure OverlayEnv (Window : Type) where
  createWindow : Except String Window
  winShow : Window → Except String Unit
  winHide : Window → Except String Unit
  winClose : Window → Except String Unit

/-- `OverlayManager::create_react_overlay_once`: run the builder, wrapping
its failure message. -/
def create_react_overlay_once {Window : Type} (env : OverlayEnv Window) :
    Except String Window :=
  match env.createWindow with
  | .error e => .error ("Failed to create React overlay: " ++ e)
  | .ok overlay => .ok overlay

/-- `OverlayManager::show_selection_overlay`: reuse the pooled window when
one exists (create count 0), else create it once (create count 1); on
success mark active and stamp `last_used`. -/
def show_selection_overlay {Window : Type} (env : OverlayEnv Window) (now : Nat)
    (self : OverlayManager Window) :
    Except String Unit × OverlayManager Window × Nat :=
  match self.overlay_window with
  | some window =>
    match env.winShow window with
    | .error e => (.error ("Failed to show overlay: " ++ e), self, 0)
    | .ok _ => (.ok (), { self with is_active := true, last_used := some now }, 0)
  | none =>
    match create_react_overlay_once env with
    | .error e => (.error e, self, 1)
    | .ok overlay =>
      (.ok (), ⟨some overlay, true, some now⟩, 1)

/-- `OverlayManager::hide_overlay`: hide the pooled window without
destroying it; no-op when no window exists. -/
def hide_overlay {Window : Type} (env : OverlayEnv Window)
    (self : OverlayManager Window) :
    Except String Unit × OverlayManager Window :=
  match self.overlay_window with
  | some window =>
    match env.winHide window with
    | .error e => (.error ("Failed to hide overlay: " ++ e), self)
    | .ok _ => (.ok (), { self with is_active := false })
  | none => (.ok (), self)

/-- `OverlayManager::cleanup_if_old`: drop the pooled window after 300 s of
inactivity while not shown (the `close` result is ignored). -/
def cleanup_if_old {Window : Type} (now : Nat) (self : OverlayManager Window) :
    OverlayManager Window :=
  match self.last_used with
  | some last_used =>
    if 300 < now - last_used ∧ self.is_active = false then
      match self.overlay_window with
      | some _ => { self with overlay_window := none }
      | none => self
    else self
  | none => self

/-- C8: overlay pooling.  With a working environment, `show()` then
`hide()` then `show()` invokes the external create function exactly once:
the first show creates the window (count 1) and activates it; hide retains
the window (still present), merely deactivating it; the second show reuses
the same window with create count 0 and reactivates it. -/
theorem overlay_show_hide_show (Window : Type) (env : OverlayEnv Window)
    (w : Window) (t1 t2 : Nat)
    (hc : env.createWindow = .ok w)
    (hs : env.winShow w = .ok ())
    (hh : env.winHide w = .ok ()) :
    show_selection_overlay env t1 (OverlayManager.new Window)
        = (.ok (), ⟨some w, true, some t1⟩, 1) ∧
    hide_overlay env (⟨some w, true, some t1⟩ : OverlayManager Window)
        = (.ok (), ⟨some w, false, some t1⟩) ∧
    show_selection_overlay env t2 (⟨some w, false, some t1⟩ : OverlayManager Window)
        = (.ok (), ⟨some w, true, some t2⟩, 0) := by
  refine ⟨?_, ?_, ?_⟩
  · show (match create_react_overlay_once env with
      | Except.error e => (Except.error e, OverlayManager.new Window, 1)
      | Except.ok overlay =>
          ((Except.ok () : Except String Unit), ⟨some overlay, true, some t1⟩, 1)) = _
    unfold create_react_overlay_once
    rw [hc]
  · show (match env.winHide w with
      | Except.error e => ((Except.error ("Failed to hide overlay: " ++ e) :
          Except String Unit), (⟨some w, true, some t1⟩ : OverlayManager Window))
      | Except.ok _ => ((Except.ok () : Except String Unit),
          { (⟨some w, true, some t1⟩ : OverlayManager Window) with
            is_active := false })) = _
    rw [hh]
  · show (match env.winShow w with
      | Except.error e => ((Except.error ("Failed to show overlay: " ++ e) :
          Except String Unit), (⟨some w, false, some t1⟩ : OverlayManager Window), 0)
      | Except.ok _ => ((Except.ok () : Except String Unit),
          { (⟨some w, false, some t1⟩ : OverlayManager Window) with
            is_active := true, last_used := some t2 }, 0)) = _
    rw [hs]

/-- Witness for C8 with a concrete environment over `Nat` window handles. -/
theorem overlay_show_hide_show_witness :
    show_selection_overlay
        (⟨.ok 7, fun _ => .ok (), fun _ => .ok (), fun _ => .ok ()⟩ : OverlayEnv Nat)
        0 (OverlayManager.new Nat)
      = (.ok (), ⟨some 7, true, some 0⟩, 1) ∧
    hide_overlay
        (⟨.ok 7, fun _ => .ok (), fun _ => .ok (), fun _ => .ok ()⟩ : OverlayEnv Nat)
        (⟨some 7, true, some 0⟩ : OverlayManager Nat)
      = (.ok (), ⟨some 7, false, some 0⟩) ∧
    show_selection_overlay
        (⟨.ok 7, fun _ => .ok (), fun _ => .ok (), fun _ => .ok ()⟩ : OverlayEnv Nat)
        9 (⟨some 7, false, some 0⟩ : OverlayManager Nat)
      = (.ok (), ⟨some 7, true, some 9⟩, 0) :=
  overlay_show_hide_show Nat
    ⟨.ok 7, fun _ => .ok (), fun _ => .ok (), fun _ => .ok ()⟩
    7 0 9 rfl rfl rfl
